import Mathlib

/-!
Verification development for the comp-check-bot front-end query lifecycle.

The definitions below are shallow embeddings of the JavaScript source:
score classifiers from ChunksSection.jsx and RecordsTable.jsx, the
status classifier from RecordsTable.jsx, the response handling of
postQuery from api.js, the progressive-step simulator from
LoadingCard.jsx, and the App.jsx state/handlers as an explicit
event-step machine. JavaScript numbers are modelled as rationals,
nullable values as Option, and the single-threaded event loop as a
step function on an explicit application state.
-/

namespace CompCheckBot

/-! ## Models of the JavaScript string builtins used by the source -/

/-- Model of the JavaScript builtin String.prototype.trim: removes leading
and trailing whitespace. -/
def jsTrim (s : String) : String :=
  String.mk (((s.data.dropWhile Char.isWhitespace).reverse.dropWhile Char.isWhitespace).reverse)

/-- Model of the JavaScript builtin String.prototype.toLowerCase
(character-wise lowering; the source only compares ASCII status words). -/
def jsToLower (s : String) : String :=
  String.mk (s.data.map Char.toLower)

/-- Model of the JavaScript builtin String.prototype.includes:
substring containment. -/
def jsIncludes (s sub : String) : Bool :=
  decide (sub.data <:+: s.data)

/-- Model of the JavaScript call text.slice(0, n): the first n characters. -/
def jsSlice0 (s : String) (n : ℕ) : String :=
  String.mk (s.data.take n)

/-- JavaScript truthiness of a possibly absent string: null, undefined and
the empty string are falsy. Returns the string itself when truthy. -/
def truthyStr : Option String → Option String
  | none => none
  | some s => if s = "" then none else some s

/-! ## ScoreClassifier: scoreLevel (ChunksSection.jsx) and scoreColor (RecordsTable.jsx) -/

/-- Embeds scoreLevel from ChunksSection.jsx:
returns high / medium / low based on similarity score thresholds. -/
def scoreLevel (score : ℚ) : String :=
  if score ≥ 0.85 then "high"
  else if score ≥ 0.70 then "medium"
  else "low"

/-- Embeds scoreColor from RecordsTable.jsx: compliance-score color. -/
def scoreColor (score : ℚ) : String :=
  if score ≥ 85 then "#22C55E"
  else if score ≥ 70 then "#F59E0B"
  else "#EF4444"

/-- Rank of a similarity band under the ordering low < medium < high. -/
def levelRank (l : String) : ℕ :=
  if l = "high" then 2 else if l = "medium" then 1 else 0

/-- Rank of a compliance color band: red < amber < green. -/
def colorRank (c : String) : ℕ :=
  if c = "#22C55E" then 2 else if c = "#F59E0B" then 1 else 0

/-! ## statusClass (RecordsTable.jsx) -/

/-- Embeds statusClass from RecordsTable.jsx. The JavaScript argument may be
a string, null or undefined; absent values are modelled as none, and the
JavaScript coercion (status or empty string) followed by toLowerCase is
modelled with Option.getD and String.toLower. -/
def statusClass (status : Option String) : String :=
  let s := jsToLower (status.getD "")
  if s = "passed" then "passed"
  else if s = "failed" then "failed"
  else "pending"

/-! ## postQuery response handling (api.js)

The fetch itself is external input and output; what the source decides is
how an HttpResponse is turned into either a parsed JSON body or a thrown
error. That decision logic (api.js lines 33 to 64) is embedded below as a
pure function from an explicit response value to an Except. -/

/-- The fields of a parsed JSON error body that postQuery reads
(body.detail and body.message). Absent fields are none. -/
structure JsonBody where
  detail : Option String
  message : Option String
  deriving DecidableEq, Repr

/-- An HTTP response as observed by postQuery: ok is the 2xx flag, the
content-type header is the empty string when absent, bodyText is the raw
body text, and parsedJson is the outcome of response.json() — none when
parsing fails or yields a JavaScript-falsy value. -/
structure HttpResponse where
  ok : Bool
  status : ℕ
  statusText : String
  contentType : String
  bodyText : String
  parsedJson : Option JsonBody
  deriving DecidableEq, Repr

/-- The message thrown when a successful status carries no usable body. -/
def emptyBodyMsg : String := "Backend returned an empty response body."

/-- Embeds the response-handling portion of postQuery (api.js):
JSON content-type leads to a parse attempt; a non-JSON body on a non-ok
response throws with the status and a 200-character excerpt (status text
when the body is empty); a non-ok response with a JSON body throws with
body.detail or body.message or the HTTP status line; an ok response with
no parsed body throws the empty-body error; otherwise the body is
returned. -/
def postQueryOnResponse (r : HttpResponse) : Except String JsonBody :=
  let isJson := jsIncludes r.contentType "application/json"
  let body : Option JsonBody := if isJson then r.parsedJson else none
  if isJson = false ∧ r.ok = false then
    Except.error ("HTTP " ++ toString r.status ++ " – Backend returned a non-JSON response. "
      ++ (if r.bodyText = "" then r.statusText else jsSlice0 r.bodyText 200))
  else if r.ok = false then
    match body with
    | none => Except.error ("HTTP " ++ toString r.status ++ " – " ++ r.statusText)
    | some b =>
      match truthyStr b.detail with
      | some d => Except.error d
      | none =>
        match truthyStr b.message with
        | some m => Except.error m
        | none => Except.error ("HTTP " ++ toString r.status ++ " – " ++ r.statusText)
  else
    match body with
    | none => Except.error emptyBodyMsg
    | some b => Except.ok b

/-- The error message of a postQuery outcome (empty for success). -/
def errMsgOf : Except String JsonBody → String
  | Except.error m => m
  | Except.ok _ => ""

/-! ## StepSimulator (LoadingCard.jsx)

LoadingCard mounts exactly while the app is loading. On mount, useState
starts the active index at 0 and useEffect starts an interval of 2200 ms;
each firing advances the index, saturating at the last step; the cleanup
on unmount clears the interval. -/

/-- Embeds STEPS from LoadingCard.jsx: the five pipeline steps (id, label). -/
def STEPS : List (String × String) :=
  [("filter", "🧠 Extracting filters"),
   ("postgres", "🐘 Querying Postgres"),
   ("embed", "🔢 Creating embedding"),
   ("milvus", "🔍 Vector search"),
   ("llm", "💡 Generating answer")]

/-- Embeds the interval delay of useProgressiveSteps: 2200 milliseconds. -/
def STEP_INTERVAL_MS : ℕ := 2200

/-- Embeds the interval callback of useProgressiveSteps:
prev < STEPS.length - 1 ? prev + 1 : prev. -/
def stepAdvance (prev : ℕ) : ℕ :=
  if prev < STEPS.length - 1 then prev + 1 else prev

/-- The active index after n interval firings in one mount of LoadingCard
(useState starts it at 0). -/
def activeAfter (n : ℕ) : ℕ :=
  stepAdvance^[n] 0

/-- Lifecycle events of the simulator: the component mounts when the app
enters Pending, the interval fires, the component unmounts when the app
leaves Pending. -/
inductive SimEv where
  | enterPending
  | tick
  | exitPending
  deriving DecidableEq, Repr

/-- Simulator state transition: none models an unmounted LoadingCard (the
interval was cleared by the useEffect cleanup), some i a mounted card with
active index i. Ticks only occur while mounted; mounting resets to 0. -/
def simStep : Option ℕ → SimEv → Option ℕ
  | none, SimEv.enterPending => some 0
  | some i, SimEv.tick => some (stepAdvance i)
  | some _, SimEv.exitPending => none
  | s, _ => s

/-! ## App.jsx: state and handlers as an event-step machine

App.jsx holds query, loading, result and error in useState hooks, the
current AbortController in abortRef, and one setTimeout per submission.
The embedding makes this state explicit: controllers are numbered by a
counter nextId, the set of controllers whose abort() has been called is
the list aborted, timer is the live timeout (none once cleared or fired),
and inflight is the controller of the awaited postQuery call whose
continuation has not yet run.

The browser event loop is single threaded and drains microtasks before
the next user event, so when abort() is called on the in-flight
controller, the fetch rejection with name AbortError runs the catch and
finally blocks of handleSubmit before any further user action. The
handlers below therefore fold that settlement into the same step, after
the synchronous effects of the handler that called abort(). -/

/-- The response payload stored in result
({ answer, retrieved_chunks, structured_records }). -/
structure QueryResult where
  answer : String
  retrieved_chunks : List (String × ℚ)
  structured_records : List (String × ℚ × Option String)
  deriving DecidableEq, Repr

/-- Embeds QUERY_TIMEOUT_MS from App.jsx: the fetch timeout, 90000 ms. -/
def QUERY_TIMEOUT_MS : ℕ := 90000

/-- The message set on an AbortError rejection in handleSubmit. -/
def timeoutMsg : String := "Request timed out or was cancelled. Please try again."

/-- The fallback message when a non-abort error carries no message. -/
def fallbackErrMsg : String := "An unexpected error occurred."

/-- A live setTimeout created by handleSubmit: which controller its
callback aborts, and its configured delay. -/
structure TimeoutTimer where
  ctrl : ℕ
  delayMs : ℕ
  deriving DecidableEq, Repr

/-- The explicit state of the App component. -/
structure AppState where
  query : String
  loading : Bool
  result : Option QueryResult
  error : Option String
  abortRef : Option ℕ
  aborted : List ℕ
  timer : Option TimeoutTimer
  inflight : Option ℕ
  nextId : ℕ
  deriving DecidableEq, Repr

/-- The initial state of App: empty query, not loading, no result, no
error, no controller, no timer. -/
def initState : AppState :=
  { query := "", loading := false, result := none, error := none,
    abortRef := none, aborted := [], timer := none, inflight := none, nextId := 0 }

/-- Clearing the timeout of controller c (the clearTimeout in the finally
block clears only the timer of its own submission). -/
def clearOwnTimer (c : ℕ) : Option TimeoutTimer → Option TimeoutTimer
  | some t => if t.ctrl = c then none else some t
  | none => none

/-- The catch and finally blocks of handleSubmit running on an AbortError
rejection of the in-flight request of controller c: setError with the
timeout message, clearTimeout of the own timer, setLoading false. -/
def settleAborted (c : ℕ) (s : AppState) : AppState :=
  { s with error := some timeoutMsg, timer := clearOwnTimer c s.timer,
           loading := false, inflight := none }

/-- The optional-chaining call abortRef.current?.abort(): marks the
referenced controller, if any, as aborted. -/
def abortCurrent (ref : Option ℕ) (ab : List ℕ) : List ℕ :=
  match ref with
  | some c => c :: ab
  | none => ab

/-- Embeds handleSubmit (App.jsx): a no-op when the trimmed query is empty
or a request is already loading; otherwise aborts the previous controller
if any, creates a fresh controller, sets loading and clears error and
result, starts the 90 second timeout, and issues the postQuery call. -/
def handleSubmit (s : AppState) : AppState :=
  if jsTrim s.query = "" ∨ s.loading = true then s
  else
    let c := s.nextId
    { s with aborted := abortCurrent s.abortRef s.aborted,
             abortRef := some c, nextId := c + 1,
             loading := true, error := none, result := none,
             timer := some { ctrl := c, delayMs := QUERY_TIMEOUT_MS },
             inflight := some c }

/-- Embeds handleClear (App.jsx): aborts the current controller if any,
resets query, result, error and loading; then, if that abort hit the
in-flight request, its AbortError settlement runs in the next microtask,
before any further user event. -/
def handleClear (s : AppState) : AppState :=
  let s1 := { s with aborted := abortCurrent s.abortRef s.aborted,
                     query := "", result := none,
                     error := none, loading := false }
  match s.inflight with
  | some c => if s.abortRef = some c then settleAborted c s1 else s1
  | none => s1

/-- The timeout callback firing: the one-shot timer is spent, the callback
aborts its controller, and if that controller is in flight the AbortError
settlement of handleSubmit runs. -/
def fireTimer (s : AppState) : AppState :=
  match s.timer with
  | none => s
  | some t =>
    let s1 := { s with timer := none, aborted := t.ctrl :: s.aborted }
    match s1.inflight with
    | some c => if c = t.ctrl then settleAborted c s1 else s1
    | none => s1

/-- The try and finally blocks of handleSubmit running on a successful
postQuery resolution: setResult, clearTimeout, setLoading false. -/
def settleSuccess (d : QueryResult) (s : AppState) : AppState :=
  match s.inflight with
  | none => s
  | some c =>
    { s with result := some d, timer := clearOwnTimer c s.timer,
             loading := false, inflight := none }

/-- The catch and finally blocks of handleSubmit running on a non-abort
rejection: setError with err.message or the fallback, clearTimeout,
setLoading false. -/
def settleFailure (m : String) (s : AppState) : AppState :=
  match s.inflight with
  | none => s
  | some c =>
    { s with error := some (if m = "" then fallbackErrMsg else m),
             timer := clearOwnTimer c s.timer,
             loading := false, inflight := none }

/-- Embeds the textarea onChange handler: typing is possible only while
the textarea is enabled (it is disabled while loading). -/
def handleSetQuery (q : String) (s : AppState) : AppState :=
  if s.loading = true then s else { s with query := q }

/-- Embeds fillExample (App.jsx): sets the query and clears result and
error; the example buttons are disabled or not rendered while loading. -/
def handleFillExample (q : String) (s : AppState) : AppState :=
  if s.loading = true then s
  else { s with query := q, result := none, error := none }

/-- The events driving the App state: user actions (typing, example fill,
submit, clear) and environment completions (timeout firing, backend
success, backend failure). -/
inductive Ev where
  | setQuery (q : String)
  | fillExample (q : String)
  | submit
  | clear
  | timerFire
  | succeed (d : QueryResult)
  | fail (m : String)

/-- One step of the App event loop. -/
def stepEv (s : AppState) : Ev → AppState
  | Ev.setQuery q => handleSetQuery q s
  | Ev.fillExample q => handleFillExample q s
  | Ev.submit => handleSubmit s
  | Ev.clear => handleClear s
  | Ev.timerFire => fireTimer s
  | Ev.succeed d => settleSuccess d s
  | Ev.fail m => settleFailure m s

/-- The states the App can reach from its initial state. -/
inductive Reachable : AppState → Prop where
  | init : Reachable initState
  | step (e : Ev) {s : AppState} : Reachable s → Reachable (stepEv s e)

/-! ## Presentation dispatch (App.jsx render, lines 191 to 230) -/

/-- The loading view renders iff loading. -/
def renderLoading (s : AppState) : Bool := s.loading

/-- The error view renders iff error and not loading. -/
def renderError (s : AppState) : Bool := s.error.isSome && !s.loading

/-- The results views render iff hasResult, i.e. result and not loading. -/
def renderResult (s : AppState) : Bool := s.result.isSome && !s.loading

/-- The welcome view renders iff not loading, no error and no result. -/
def renderWelcome (s : AppState) : Bool :=
  !s.loading && !s.error.isSome && !s.result.isSome

/-- The LifecycleState tagged union of the specification. -/
inductive LifecycleState where
  | idle
  | pending
  | failed (msg : String)
  | succeeded (r : QueryResult)
  deriving DecidableEq, Repr

/-- The LifecycleState derived from the App state: loading means Pending,
otherwise an error means Failed, a result means Succeeded, and nothing
means Idle. -/
def lifecycleOf (s : AppState) : LifecycleState :=
  if s.loading then LifecycleState.pending
  else
    match s.error with
    | some m => LifecycleState.failed m
    | none =>
      match s.result with
      | some r => LifecycleState.succeeded r
      | none => LifecycleState.idle

/-! ## The inductive invariant of the App event machine -/

/-- Invariant of reachable App states: loading coincides with a request
being in flight; the in-flight controller is the current, never-aborted
one; controller ids are bounded by the counter; a live timer belongs to
the in-flight controller and carries the configured 90 second delay;
result and error are never both present; and a loading state carries
neither result nor error. -/
structure Inv (s : AppState) : Prop where
  load_eq : s.loading = s.inflight.isSome
  inflight_ref : ∀ c, s.inflight = some c → s.abortRef = some c ∧ c ∉ s.aborted
  ref_lt : ∀ c, s.abortRef = some c → c < s.nextId
  aborted_lt : ∀ c, c ∈ s.aborted → c < s.nextId
  timer_ok : ∀ t, s.timer = some t → s.inflight = some t.ctrl ∧ t.delayMs = QUERY_TIMEOUT_MS
  not_both : s.result = none ∨ s.error = none
  pending_clean : s.loading = true → s.result = none ∧ s.error = none

theorem mem_abortCurrent {c : ℕ} {ref : Option ℕ} {ab : List ℕ}
    (h : c ∈ abortCurrent ref ab) : ref = some c ∨ c ∈ ab := by
  cases ref with
  | none => exact Or.inr h
  | some c0 =>
    rcases List.mem_cons.mp h with h1 | h2
    · exact Or.inl (by rw [h1])
    · exact Or.inr h2

theorem inv_init : Inv initState := by
  constructor <;> simp [initState]

theorem inv_handleSetQuery (q : String) {s : AppState} (h : Inv s) :
    Inv (handleSetQuery q s) := by
  unfold handleSetQuery
  split
  · exact h
  · obtain ⟨l, ir, rl, al, tk, nb, pc⟩ := h
    exact ⟨l, ir, rl, al, tk, nb, pc⟩

theorem inv_handleFillExample (q : String) {s : AppState} (h : Inv s) :
    Inv (handleFillExample q s) := by
  unfold handleFillExample
  split
  · exact h
  · rename_i hl
    obtain ⟨l, ir, rl, al, tk, nb, pc⟩ := h
    refine ⟨l, ir, rl, al, tk, Or.inl rfl, ?_⟩
    intro hh
    exact absurd hh hl

theorem lt_of_mem_abortCurrent {c : ℕ} {ref : Option ℕ} {ab : List ℕ} {n : ℕ}
    (h : c ∈ abortCurrent ref ab)
    (hr : ∀ c0, ref = some c0 → c0 < n) (ha : ∀ c0, c0 ∈ ab → c0 < n) : c < n := by
  rcases mem_abortCurrent h with h1 | h2
  · exact hr _ h1
  · exact ha _ h2

theorem inv_handleSubmit {s : AppState} (h : Inv s) : Inv (handleSubmit s) := by
  obtain ⟨q, ld, res, err, ref, ab, tm, infl, nid⟩ := s
  obtain ⟨l, ir, rl, al, tk, nb, pc⟩ := h
  simp only at l ir rl al tk nb pc
  unfold handleSubmit
  split
  · exact ⟨l, ir, rl, al, tk, nb, pc⟩
  · refine ⟨rfl, ?_, ?_, ?_, ?_, Or.inl rfl, fun _ => ⟨rfl, rfl⟩⟩ <;>
      simp only [Option.some.injEq]
    · intro c hc
      subst hc
      refine ⟨rfl, fun hmem => ?_⟩
      exact absurd (lt_of_mem_abortCurrent hmem rl al) (lt_irrefl _)
    · intro c hc
      subst hc
      exact Nat.lt_succ_self _
    · intro c hc
      exact Nat.lt_succ_of_lt (lt_of_mem_abortCurrent hc rl al)
    · intro t ht
      subst ht
      exact ⟨rfl, rfl⟩

theorem inv_handleClear {s : AppState} (h : Inv s) : Inv (handleClear s) := by
  obtain ⟨q, ld, res, err, ref, ab, tm, infl, nid⟩ := s
  obtain ⟨l, ir, rl, al, tk, nb, pc⟩ := h
  simp only at l ir rl al tk nb pc
  unfold handleClear
  cases infl with
  | none =>
    simp only
    refine ⟨rfl, by simp, rl, ?_, ?_, Or.inl rfl, by simp⟩
    · intro c hc
      exact lt_of_mem_abortCurrent hc rl al
    · intro t ht
      simp only at ht
      exact absurd (tk t ht).1 (by simp)
  | some c =>
    have href : ref = some c := (ir c rfl).1
    subst href
    simp only [reduceIte]
    unfold settleAborted
    refine ⟨rfl, by simp, rl, ?_, ?_, Or.inl rfl, by simp⟩
    · intro c0 hc0
      exact lt_of_mem_abortCurrent hc0 rl al
    · intro t ht
      simp only [clearOwnTimer] at ht
      cases tm with
      | none => exact absurd ht (by simp)
      | some t0 =>
        have hct : t0.ctrl = c := by
          have h1 := (tk t0 rfl).1
          simp only [Option.some.injEq] at h1
          omega
        simp only [hct, reduceIte] at ht
        exact absurd ht (by simp)

theorem inv_fireTimer {s : AppState} (h : Inv s) : Inv (fireTimer s) := by
  obtain ⟨q, ld, res, err, ref, ab, tm, infl, nid⟩ := s
  obtain ⟨l, ir, rl, al, tk, nb, pc⟩ := h
  simp only at l ir rl al tk nb pc
  unfold fireTimer
  cases tm with
  | none => exact ⟨l, ir, rl, al, tk, nb, pc⟩
  | some t =>
    have hin : infl = some t.ctrl := (tk t rfl).1
    subst hin
    simp only [reduceIte]
    unfold settleAborted
    have hres : res = none := (pc (by simp [l])).1
    refine ⟨rfl, by simp, rl, ?_, by simp [clearOwnTimer], Or.inl hres, by simp⟩
    intro c0 hc0
    rcases List.mem_cons.mp hc0 with h1 | h2
    · subst h1
      exact rl _ (ir _ rfl).1
    · exact al _ h2

theorem inv_settleSuccess (d : QueryResult) {s : AppState} (h : Inv s) :
    Inv (settleSuccess d s) := by
  obtain ⟨q, ld, res, err, ref, ab, tm, infl, nid⟩ := s
  obtain ⟨l, ir, rl, al, tk, nb, pc⟩ := h
  simp only at l ir rl al tk nb pc
  unfold settleSuccess
  cases infl with
  | none => exact ⟨l, ir, rl, al, tk, nb, pc⟩
  | some c =>
    have herr : err = none := (pc (by simp [l])).2
    refine ⟨rfl, by simp, rl, al, ?_, Or.inr herr, by simp⟩
    intro t ht
    simp only [clearOwnTimer] at ht
    cases tm with
    | none => exact absurd ht (by simp)
    | some t0 =>
      have hct : t0.ctrl = c := by
        have h1 := (tk t0 rfl).1
        simp only [Option.some.injEq] at h1
        omega
      simp only [hct, reduceIte] at ht
      exact absurd ht (by simp)

theorem inv_settleFailure (m : String) {s : AppState} (h : Inv s) :
    Inv (settleFailure m s) := by
  obtain ⟨q, ld, res, err, ref, ab, tm, infl, nid⟩ := s
  obtain ⟨l, ir, rl, al, tk, nb, pc⟩ := h
  simp only at l ir rl al tk nb pc
  unfold settleFailure
  cases infl with
  | none => exact ⟨l, ir, rl, al, tk, nb, pc⟩
  | some c =>
    have hres : res = none := (pc (by simp [l])).1
    refine ⟨rfl, by simp, rl, al, ?_, Or.inl hres, by simp⟩
    intro t ht
    simp only [clearOwnTimer] at ht
    cases tm with
    | none => exact absurd ht (by simp)
    | some t0 =>
      have hct : t0.ctrl = c := by
        have h1 := (tk t0 rfl).1
        simp only [Option.some.injEq] at h1
        omega
      simp only [hct, reduceIte] at ht
      exact absurd ht (by simp)

theorem inv_step {s : AppState} (e : Ev) (h : Inv s) : Inv (stepEv s e) := by
  cases e with
  | setQuery q => exact inv_handleSetQuery q h
  | fillExample q => exact inv_handleFillExample q h
  | submit => exact inv_handleSubmit h
  | clear => exact inv_handleClear h
  | timerFire => exact inv_fireTimer h
  | succeed d => exact inv_settleSuccess d h
  | fail m => exact inv_settleFailure m h

/-- Every reachable state satisfies the invariant. -/
theorem inv_of_reachable {s : AppState} (h : Reachable s) : Inv s := by
  induction h with
  | init => exact inv_init
  | step e _ ih => exact inv_step e ih

/-! ## Shared concrete states and reachability facts -/

/-- A Pending state: the user typed the query q and submitted it. -/
def sPend : AppState := stepEv (stepEv initState (Ev.setQuery "q")) Ev.submit

/-- A state whose query is whitespace only. -/
def sWs : AppState := stepEv initState (Ev.setQuery "   ")

theorem reachable_sPend : Reachable sPend :=
  Reachable.step Ev.submit (Reachable.step (Ev.setQuery "q") Reachable.init)

/-! ## Claim theorems -/

/-- C4: the score classifiers map boundary values into the higher band
(closed lower bound): on the similarity scale 0.85 is high, 0.8499 and
0.70 are medium, 0.6999 is low; on the compliance scale 85 is high
(green) and 84 is medium (amber). -/
theorem claim_C4_boundaries :
    scoreLevel (0.85 : ℚ) = "high" ∧
    scoreLevel (0.8499 : ℚ) = "medium" ∧
    scoreLevel (0.70 : ℚ) = "medium" ∧
    scoreLevel (0.6999 : ℚ) = "low" ∧
    scoreColor (85 : ℚ) = "#22C55E" ∧
    scoreColor (84 : ℚ) = "#F59E0B" := by
  refine ⟨?_, ?_, ?_, ?_, ?_, ?_⟩ <;> norm_num [scoreLevel, scoreColor]

/-- C5: both score classifiers are total (every rational input lands in
one of the three bands, out-of-range inputs falling into the nearest
band), deterministic, and monotone for the ordering low < medium < high
(red < amber < green on the compliance scale). -/
theorem claim_C5_band_props :
    (∀ s : ℚ, scoreLevel s = "high" ∨ scoreLevel s = "medium" ∨ scoreLevel s = "low") ∧
    (∀ s : ℚ, scoreColor s = "#22C55E" ∨ scoreColor s = "#F59E0B" ∨ scoreColor s = "#EF4444") ∧
    (∀ s t : ℚ, s = t → scoreLevel s = scoreLevel t) ∧
    (∀ s t : ℚ, s = t → scoreColor s = scoreColor t) ∧
    (∀ s1 s2 : ℚ, s2 ≤ s1 → levelRank (scoreLevel s2) ≤ levelRank (scoreLevel s1)) ∧
    (∀ s1 s2 : ℚ, s2 ≤ s1 → colorRank (scoreColor s2) ≤ colorRank (scoreColor s1)) ∧
    (∀ s : ℚ, 1 < s → scoreLevel s = "high") ∧
    (∀ s : ℚ, s < 0 → scoreLevel s = "low") ∧
    (∀ s : ℚ, 100 < s → scoreColor s = "#22C55E") ∧
    (∀ s : ℚ, s < 0 → scoreColor s = "#EF4444") := by
  refine ⟨?_, ?_, fun s t h => by rw [h], fun s t h => by rw [h], ?_, ?_, ?_, ?_, ?_, ?_⟩
  · intro s
    unfold scoreLevel
    split_ifs <;> simp
  · intro s
    unfold scoreColor
    split_ifs <;> simp
  · intro s1 s2 h
    unfold scoreLevel levelRank
    split_ifs <;> first | decide | (exfalso; linarith) | simp_all
  · intro s1 s2 h
    unfold scoreColor colorRank
    split_ifs <;> first | decide | (exfalso; linarith) | simp_all
  · intro s h
    unfold scoreLevel
    rw [if_pos (by linarith)]
  · intro s h
    unfold scoreLevel
    rw [if_neg (by intro hc; linarith), if_neg (by intro hc; linarith)]
  · intro s h
    unfold scoreColor
    rw [if_pos (by linarith)]
  · intro s h
    unfold scoreColor
    rw [if_neg (by intro hc; linarith), if_neg (by intro hc; linarith)]

/-- C5 witness: the monotonicity and clamping parts applied at concrete
scores. -/
theorem claim_C5_band_props_witness :
    ((0.70 : ℚ) ≤ 0.90 ∧ levelRank (scoreLevel (0.70 : ℚ)) ≤ levelRank (scoreLevel (0.90 : ℚ))) ∧
    ((2 : ℚ) > 1 ∧ scoreLevel (2 : ℚ) = "high") ∧
    ((-1 : ℚ) < 0 ∧ scoreLevel (-1 : ℚ) = "low") :=
  ⟨⟨by norm_num, claim_C5_band_props.2.2.2.2.1 0.90 0.70 (by norm_num)⟩,
   ⟨by norm_num, claim_C5_band_props.2.2.2.2.2.2.1 2 (by norm_num)⟩,
   ⟨by norm_num, claim_C5_band_props.2.2.2.2.2.2.2.1 (-1) (by norm_num)⟩⟩

/-- C10: statusClass is total and never throws: it maps every input (any
string, or an absent value) to exactly one of passed, failed, pending;
it returns passed iff the input lowercases to passed, failed iff it
lowercases to failed, and pending for everything else, absent values
included. -/
theorem claim_C10_statusClass :
    (∀ st : Option String,
      (statusClass st = "passed" ∨ statusClass st = "failed" ∨ statusClass st = "pending") ∧
      (statusClass st = "passed" ↔ jsToLower (st.getD "") = "passed") ∧
      (statusClass st = "failed" ↔ jsToLower (st.getD "") = "failed") ∧
      (statusClass st = "pending" ↔
        (jsToLower (st.getD "") ≠ "passed" ∧ jsToLower (st.getD "") ≠ "failed"))) ∧
    statusClass none = "pending" ∧ statusClass (some "") = "pending" := by
  refine ⟨?_, by decide, by decide⟩
  intro st
  unfold statusClass
  dsimp only
  split_ifs with h1 h2 <;> simp_all

/-- C8: while Pending the stage indicator starts at 0, advances one step
per 2200 ms interval firing, saturates at the last of the five stages
(never exceeding it, never cycling, never decreasing), and the simulator
unmounts on exit from Pending and restarts at index 0 on the next entry
into Pending. -/
theorem claim_C8_stepSimulator :
    STEP_INTERVAL_MS = 2200 ∧
    STEPS.length = 5 ∧
    activeAfter 0 = 0 ∧
    (∀ n, activeAfter n = min n (STEPS.length - 1)) ∧
    (∀ n, activeAfter n ≤ STEPS.length - 1) ∧
    (∀ n, activeAfter n ≤ activeAfter (n + 1)) ∧
    (∀ i, simStep (some i) SimEv.exitPending = none) ∧
    simStep none SimEv.enterPending = some 0 := by
  have hlen : STEPS.length - 1 = 4 := rfl
  have key : ∀ n, activeAfter n = min n 4 := by
    intro n
    induction n with
    | zero => rfl
    | succ n ih =>
      unfold activeAfter at ih ⊢
      rw [Function.iterate_succ_apply', ih]
      unfold stepAdvance
      rw [hlen]
      split <;> omega
  refine ⟨rfl, rfl, rfl, ?_, ?_, ?_, fun i => rfl, rfl⟩
  · intro n
    rw [key, hlen]
  · intro n
    rw [key, hlen]
    omega
  · intro n
    rw [key, key]
    omega

/-- C2: at every reachable state exactly one of the four views renders,
and the rendered view is determined by the LifecycleState variant:
Pending renders the loading view, Failed the error view, Succeeded the
answer/evidence/records views, Idle the welcome view. -/
theorem claim_C2_one_view {s : AppState} (hr : Reachable s) :
    ((renderLoading s).toNat + (renderError s).toNat
      + (renderResult s).toNat + (renderWelcome s).toNat = 1) ∧
    (lifecycleOf s = LifecycleState.pending ↔ renderLoading s = true) ∧
    ((∃ m, lifecycleOf s = LifecycleState.failed m) ↔ renderError s = true) ∧
    ((∃ r0, lifecycleOf s = LifecycleState.succeeded r0) ↔ renderResult s = true) ∧
    (lifecycleOf s = LifecycleState.idle ↔ renderWelcome s = true) := by
  obtain ⟨l, ir, rl, al, tk, nb, pc⟩ := inv_of_reachable hr
  unfold renderLoading renderError renderResult renderWelcome lifecycleOf
  cases hld : s.loading with
  | true =>
    obtain ⟨hres, herr⟩ := pc hld
    simp [hres, herr]
  | false =>
    cases herr : s.error with
    | some m =>
      have hres : s.result = none := by
        rcases nb with h | h
        · exact h
        · rw [herr] at h
          cases h
      simp [herr, hres]
    | none =>
      cases hres : s.result with
      | some r1 => simp [herr, hres]
      | none => simp [herr, hres]

/-- C2 witness: the exactly-one-view count at the initial state. -/
theorem claim_C2_one_view_witness :
    (renderLoading initState).toNat + (renderError initState).toNat
      + (renderResult initState).toNat + (renderWelcome initState).toNat = 1 :=
  (claim_C2_one_view Reachable.init).1

/-- C3: a live timer of a reachable state always carries the configured
90000 ms delay; if the backend never settles, the timer firing aborts the
controller and drives the state to Failed with the timeout message, with
no timer left pending; and every resolution (success, failure, clear,
timeout) leaves the timer cleared. -/
theorem claim_C3_timeout {s : AppState} (hr : Reachable s) {t : TimeoutTimer}
    (ht : s.timer = some t) :
    QUERY_TIMEOUT_MS = 90000 ∧
    t.delayMs = QUERY_TIMEOUT_MS ∧
    (stepEv s Ev.timerFire).error = some timeoutMsg ∧
    (stepEv s Ev.timerFire).loading = false ∧
    lifecycleOf (stepEv s Ev.timerFire) = LifecycleState.failed timeoutMsg ∧
    (stepEv s Ev.timerFire).timer = none ∧
    t.ctrl ∈ (stepEv s Ev.timerFire).aborted ∧
    (∀ d, (stepEv s (Ev.succeed d)).timer = none) ∧
    (∀ m, (stepEv s (Ev.fail m)).timer = none) ∧
    (stepEv s Ev.clear).timer = none := by
  obtain ⟨q, ld, res, err, ref, ab, tm, infl, nid⟩ := s
  obtain ⟨l, ir, rl, al, tk, nb, pc⟩ := inv_of_reachable hr
  simp only at l ir rl al tk nb pc ht
  obtain ⟨hin, hdelay⟩ := tk t ht
  subst ht
  subst hin
  have href : ref = some t.ctrl := (ir t.ctrl rfl).1
  subst href
  refine ⟨rfl, hdelay, ?_, ?_, ?_, ?_, ?_, ?_, ?_, ?_⟩ <;>
    simp [stepEv, fireTimer, settleAborted, settleSuccess, settleFailure, handleClear,
          clearOwnTimer, lifecycleOf, abortCurrent]

/-- C3 witness: the timeout behavior at the concrete Pending state. -/
theorem claim_C3_timeout_witness :
    sPend.timer = some { ctrl := 0, delayMs := 90000 } ∧
    (stepEv sPend Ev.timerFire).error = some timeoutMsg ∧
    (stepEv sPend Ev.timerFire).timer = none :=
  ⟨by decide, (claim_C3_timeout (t := { ctrl := 0, delayMs := 90000 }) reachable_sPend (by decide)).2.2.1,
   (claim_C3_timeout (t := { ctrl := 0, delayMs := 90000 }) reachable_sPend (by decide)).2.2.2.2.2.1⟩

/-- C6: submit is a silent no-op when the trimmed query is empty or a
request is already Pending: the entire state (query, result, error,
loading, controllers, timers, in-flight call) is left unchanged. -/
theorem claim_C6_invalid_submit {s : AppState}
    (h : jsTrim s.query = "" ∨ s.loading = true) :
    stepEv s Ev.submit = s := by
  show handleSubmit s = s
  unfold handleSubmit
  rw [if_pos h]

/-- C6 witness: a whitespace-only query while Idle and a valid query while
Pending both make submit a no-op. -/
theorem claim_C6_invalid_submit_witness :
    (jsTrim sWs.query = "" ∨ sWs.loading = true) ∧ stepEv sWs Ev.submit = sWs ∧
    (jsTrim sPend.query = "" ∨ sPend.loading = true) ∧ stepEv sPend Ev.submit = sPend :=
  ⟨Or.inl (by decide), claim_C6_invalid_submit (Or.inl (by decide)),
   Or.inr (by decide), claim_C6_invalid_submit (Or.inr (by decide))⟩

/-- C1 counterexample: in a reachable Pending state, calling submit does
not cancel the prior AbortHandle and does not create a new one — the
guard makes it a no-op: the state is unchanged, the aborted set stays
empty and the controller counter does not advance. This refutes the
claim that submit-while-Pending cancels the prior handle before creating
a new one. -/
theorem claim_C1_counterexample :
    sPend.loading = true ∧
    sPend.abortRef = some 0 ∧
    stepEv sPend Ev.submit = sPend ∧
    (stepEv sPend Ev.submit).aborted = [] ∧
    (stepEv sPend Ev.submit).nextId = sPend.nextId ∧
    (stepEv sPend Ev.submit).abortRef = some 0 := by
  decide

/-- C1 amended: submit while Pending is a silent no-op (no cancellation,
no new AbortHandle); the at-most-one-in-flight discipline this guard
enforces means the in-flight request of any reachable state is always
the one owned by the current, never-aborted AbortHandle, so the
LifecycleState always reflects the most recently accepted submission. -/
theorem claim_C1_amended {s : AppState} (hr : Reachable s) (hl : s.loading = true) :
    stepEv s Ev.submit = s ∧
    (∀ c, s.inflight = some c → s.abortRef = some c ∧ c ∉ s.aborted) := by
  obtain ⟨l, ir, rl, al, tk, nb, pc⟩ := inv_of_reachable hr
  constructor
  · show handleSubmit s = s
    unfold handleSubmit
    rw [if_pos (Or.inr hl)]
  · exact ir

/-- C1 witness: the amended no-op fact at the concrete Pending state. -/
theorem claim_C1_amended_witness :
    sPend.loading = true ∧ stepEv sPend Ev.submit = sPend :=
  ⟨by decide, (claim_C1_amended reachable_sPend (by decide)).1⟩

/-- C7 (code bug): clearing while a request is Pending does not settle in
Idle. The clear handler aborts the in-flight fetch; its AbortError
rejection then runs the catch block of handleSubmit, which sets the
cancellation message, so the state after the clear is Failed with the
timeout/cancel message, not Idle. -/
theorem claim_C7_clear_while_pending_bug :
    sPend.loading = true ∧
    (stepEv sPend Ev.clear).error = some timeoutMsg ∧
    (stepEv sPend Ev.clear).loading = false ∧
    (stepEv sPend Ev.clear).result = none ∧
    (stepEv sPend Ev.clear).query = "" ∧
    lifecycleOf (stepEv sPend Ev.clear) = LifecycleState.failed timeoutMsg ∧
    lifecycleOf (stepEv sPend Ev.clear) ≠ LifecycleState.idle := by
  decide

/-! ## C9: api.js error-path helpers and theorems -/

/-- Appending strings concatenates their character data. -/
theorem str_data_append (a b : String) : (a ++ b).data = a.data ++ b.data := rfl

/-- Whether a postQuery outcome is a success. -/
def isOkResp : Except String JsonBody → Bool
  | Except.ok _ => true
  | Except.error _ => false

/-- The excerpt produced by jsSlice0 never exceeds n characters. -/
theorem jsSlice0_length_le (s : String) (n : ℕ) : (jsSlice0 s n).length ≤ n := by
  show (s.data.take n).length ≤ n
  rw [List.length_take]
  omega

/-- A 2xx response with a non-JSON content type and a non-empty body: the
claim says every non-JSON body yields an error surfacing the status code
and a body excerpt, but the code routes this response to the empty-body
error, whose message contains neither the status nor any part of the
body. -/
def rHtml200 : HttpResponse :=
  { ok := true, status := 200, statusText := "OK", contentType := "text/html",
    bodyText := "<html>Bad Gateway</html>", parsedJson := none }

/-- C9 counterexample: the response rHtml200 has a non-JSON body, yet the
query call fails with the empty-body message, which surfaces neither the
status code 200 nor any excerpt of the body, refuting the universally
quantified first half of the claim. -/
theorem claim_C9_counterexample :
    rHtml200.ok = true ∧
    jsIncludes rHtml200.contentType "application/json" = false ∧
    rHtml200.bodyText ≠ "" ∧
    isOkResp (postQueryOnResponse rHtml200) = false ∧
    errMsgOf (postQueryOnResponse rHtml200) = emptyBodyMsg ∧
    jsIncludes (errMsgOf (postQueryOnResponse rHtml200)) (toString rHtml200.status) = false ∧
    jsIncludes (errMsgOf (postQueryOnResponse rHtml200)) (jsSlice0 rHtml200.bodyText 200) = false := by
  decide

/-- C9 amended: for every non-2xx response whose content type is not
JSON, the call fails with an error surfacing the status code and a body
excerpt of at most 200 characters, falling back to the status text when
the body is empty; and every 2xx response that yields no parsed JSON
body — non-JSON content type, empty or unparseable body — fails with the
distinct empty-body message rather than being treated as success. -/
theorem claim_C9_amended : ∀ r : HttpResponse,
    (r.ok = false → jsIncludes r.contentType "application/json" = false →
      isOkResp (postQueryOnResponse r) = false ∧
      (toString r.status).data <:+: (errMsgOf (postQueryOnResponse r)).data ∧
      (jsSlice0 r.bodyText 200).length ≤ 200 ∧
      (r.bodyText ≠ "" → (jsSlice0 r.bodyText 200).data <:+: (errMsgOf (postQueryOnResponse r)).data) ∧
      (r.bodyText = "" → r.statusText.data <:+: (errMsgOf (postQueryOnResponse r)).data)) ∧
    (r.ok = true →
      (if jsIncludes r.contentType "application/json" then r.parsedJson else none) = none →
      postQueryOnResponse r = Except.error emptyBodyMsg) := by
  intro r
  obtain ⟨ok, status, statusText, ct, bt, pj⟩ := r
  constructor
  · intro hok hct
    simp only at hok hct
    subst hok
    have hres : postQueryOnResponse ⟨false, status, statusText, ct, bt, pj⟩ =
        Except.error ("HTTP " ++ toString status ++ " – Backend returned a non-JSON response. "
          ++ (if bt = "" then statusText else jsSlice0 bt 200)) := by
      unfold postQueryOnResponse
      dsimp only
      rw [hct]
      rw [if_pos ⟨rfl, rfl⟩]
    rw [hres]
    unfold errMsgOf isOkResp
    refine ⟨rfl, ?_, jsSlice0_length_le bt 200, ?_, ?_⟩
    · exact ⟨"HTTP ".data,
        (" – Backend returned a non-JSON response. "
          ++ (if bt = "" then statusText else jsSlice0 bt 200)).data,
        by simp [str_data_append]⟩
    · intro hbt
      rw [if_neg hbt]
      exact ⟨("HTTP " ++ toString status ++ " – Backend returned a non-JSON response. ").data,
        [], by simp [str_data_append]⟩
    · intro hbt
      rw [if_pos hbt]
      exact ⟨("HTTP " ++ toString status ++ " – Backend returned a non-JSON response. ").data,
        [], by simp [str_data_append]⟩
  · intro hok hbody
    simp only at hok hbody
    subst hok
    unfold postQueryOnResponse
    dsimp only
    rw [if_neg (by simp)]
    rw [if_neg (by simp)]
    rw [hbody]

/-- A 502 gateway error page and an empty-bodied 2xx JSON response, the
two poles of the amended claim. -/
def rBad502 : HttpResponse :=
  { ok := false, status := 502, statusText := "Bad Gateway", contentType := "text/html",
    bodyText := "<html>err</html>", parsedJson := none }

/-- A 2xx response whose body is empty and yields no parsed JSON. -/
def rEmpty200 : HttpResponse :=
  { ok := true, status := 200, statusText := "OK", contentType := "application/json",
    bodyText := "", parsedJson := none }

/-- C9 amended witness: the error for a 502 HTML page contains the
status code, and the empty-bodied 2xx response yields the empty-body
error. -/
theorem claim_C9_amended_witness :
    rBad502.ok = false ∧
    jsIncludes rBad502.contentType "application/json" = false ∧
    (toString rBad502.status).data <:+: (errMsgOf (postQueryOnResponse rBad502)).data ∧
    rEmpty200.ok = true ∧
    postQueryOnResponse rEmpty200 = Except.error emptyBodyMsg :=
  ⟨rfl, by decide, ((claim_C9_amended rBad502).1 rfl (by decide)).2.1,
   rfl, (claim_C9_amended rEmpty200).2 rfl (by decide)⟩

end CompCheckBot
